import Mathlib

/-!
Verification development for the block-kit SDK compliance engine.

The definitions below are a shallow embedding of the Python sources:
monetary amounts become rationals, pydantic models become structures,
reason strings become an inductive tag per return site, and the mutable
cumulative-spend global of the routes module becomes explicit state
passing.
-/

namespace BlockKit

/-- Embedding of blocks.models.TransactionProposal: a transaction proposed
by a block to the Wallet Core. Amounts are modelled as rationals. -/
structure TransactionProposal where
  block_id : String
  action_type : String
  asset_id : String
  amount : ℚ
  currency : String
  justification : Option String := none
deriving DecidableEq, Repr

/-- Embedding of controller.models.ControllerSettings: per-block-instance
spending limits for an action block. -/
structure ControllerSettings where
  authorized_duration_days : Int
  asset_id : String
  max_amount_per_transaction : ℚ
  cumulative_max_amount : ℚ
deriving DecidableEq, Repr

/-- Reason tags, one per return site of
ControllerManager.is_proposal_compliant in controller/manager.py. The
authorizationExpired tag is named by the spec; the source function has no
return site producing it. -/
inductive Reason where
  | compliant
  | assetMismatch
  | nonPositiveAmount
  | perTransactionLimitExceeded
  | cumulativeLimitExceeded
  | authorizationExpired
deriving DecidableEq, Repr

/-- Embedding of ControllerManager.is_proposal_compliant
(controller/manager.py lines 8-54; control/manager.py lines 10-56 is an
identical revision). The checks run in source order: asset id, positive
amount, per-transaction cap, cumulative cap; the function takes no
time or window input and has no authorization-window check. -/
def is_proposal_compliant (proposal : TransactionProposal)
    (controller_settings : ControllerSettings)
    (current_cumulative_spent : ℚ) : Bool × Reason :=
  if proposal.asset_id ≠ controller_settings.asset_id then
    (false, Reason.assetMismatch)
  else if proposal.amount ≤ 0 then
    (false, Reason.nonPositiveAmount)
  else if proposal.amount > controller_settings.max_amount_per_transaction then
    (false, Reason.perTransactionLimitExceeded)
  else if current_cumulative_spent + proposal.amount >
      controller_settings.cumulative_max_amount then
    (false, Reason.cumulativeLimitExceeded)
  else
    (true, Reason.compliant)

/-- Modelled from the spec: the Authorization Ledger entry derives
window_expired as now minus window_start exceeding
authorized_duration_days. No ledger-window code exists under src; the
engine in controller/manager.py receives only cumulative spend. -/
def window_expired (now window_start authorized_duration_days : Int) : Bool :=
  now - window_start > authorized_duration_days

/-- Status values produced by propose_transaction_endpoint in
routes/init: rejection by the library compliance core, rejection by
the action block pre-check inside ActionBlock.propose_transaction, or
acceptance (status proposed). -/
inductive EndpointStatus where
  | proposed
  | rejectedByLibraryCore (reason : Reason)
  | rejectedByBlockPreCheck
deriving DecidableEq, Repr

/-- Embedding of ActionBlock.propose_transaction (blocks/base.py lines
171-208): the block pre-checks asset id and the per-transaction cap
against its control settings, then falls through to the base method that
returns status proposed. -/
def ActionBlock.propose_transaction (control_settings : ControllerSettings)
    (proposal_data : TransactionProposal) : EndpointStatus :=
  if proposal_data.asset_id ≠ control_settings.asset_id then
    EndpointStatus.rejectedByBlockPreCheck
  else if proposal_data.amount > control_settings.max_amount_per_transaction then
    EndpointStatus.rejectedByBlockPreCheck
  else
    EndpointStatus.proposed

/-- Embedding of propose_transaction_endpoint for the action block
(routes/init lines 66-116). The global current_cumulative_spend
(line 55) is the explicit state: the function returns the response status
together with the new value of that state. The ledger state holds nothing
else, so the returned rational is the whole post-state. -/
def propose_transaction_endpoint (controller_settings : ControllerSettings)
    (proposal_input : TransactionProposal)
    (current_cumulative_spend : ℚ) : EndpointStatus × ℚ :=
  match is_proposal_compliant proposal_input controller_settings
      current_cumulative_spend with
  | (false, reason) =>
      (EndpointStatus.rejectedByLibraryCore reason, current_cumulative_spend)
  | (true, _) =>
      match ActionBlock.propose_transaction controller_settings proposal_input with
      | EndpointStatus.proposed =>
          (EndpointStatus.proposed, current_cumulative_spend + proposal_input.amount)
      | response =>
          (response, current_cumulative_spend)

/-- Embedding of wallet_controller.models.AnalystController. The field
authorized_duration_days is declared Optional[PositiveInt]; it is kept as
an optional integer here so that the non-positivity check of the base
interface stays meaningful (the caller recomputes remaining days). -/
structure AnalystController where
  authorized : Bool := false
  authorized_duration_days : Option Int := none
  portfolio_access : Bool := false
  advice_allowed : Bool := false
deriving DecidableEq, Repr

/-- Reason tags, one per return site of the analyst compliance chain in
wallet_controller/block.py and wallet_controller/analyst.py. -/
inductive AnalystReason where
  | compliant
  | notAuthorized
  | authorizationHasExpired
  | invalidOperationType
  | adviceNotPermitted
  | invalidMessageType
deriving DecidableEq, Repr

/-- Embedding of BaseWalletInterface.is_operation_compliant
(wallet_controller/block.py lines 11-41): authorization flag, then
expiry of authorized_duration_days when present. -/
def BaseWalletInterface.is_operation_compliant
    (controller_settings : AnalystController) : Bool × AnalystReason :=
  if ¬controller_settings.authorized then
    (false, AnalystReason.notAuthorized)
  else
    match controller_settings.authorized_duration_days with
    | some d =>
        if d ≤ 0 then (false, AnalystReason.authorizationHasExpired)
        else (true, AnalystReason.compliant)
    | none => (true, AnalystReason.compliant)

/-- Truthiness of the optional message_type string, as tested by the
Python statement if message_type: an absent value and the empty string
are both falsy. -/
def strTruthy : Option String → Bool
  | none => false
  | some s => s ≠ ""

/-- Embedding of AnalystWalletInterface.is_operation_compliant
(wallet_controller/analyst.py lines 11-46): base checks first, then the
operation type must equal chat_message, and a truthy message_type is
checked for advice permission and membership in the advice or analysis
kinds, in that source order. -/
def AnalystWalletInterface.is_operation_compliant
    (controller_settings : AnalystController) (operation_type : String)
    (message_type : Option String) : Bool × AnalystReason :=
  match BaseWalletInterface.is_operation_compliant controller_settings with
  | (false, reason) => (false, reason)
  | (true, _) =>
      if operation_type ≠ "chat_message" then
        (false, AnalystReason.invalidOperationType)
      else if strTruthy message_type then
        if message_type = some "advice" ∧ ¬controller_settings.advice_allowed then
          (false, AnalystReason.adviceNotPermitted)
        else if message_type ≠ some "advice" ∧ message_type ≠ some "analysis" then
          (false, AnalystReason.invalidMessageType)
        else
          (true, AnalystReason.compliant)
      else
        (true, AnalystReason.compliant)

/-- Embedding of the RecurringInterval enumeration of blocks/models.py. -/
inductive RecurringInterval where
  | monthly
  | quarterly
  | annually
deriving DecidableEq, Repr

/-- Embedding of the FeeCurrency enumeration of blocks/models.py
(the src/src revision, which also admits BTC and SOL). -/
inductive FeeCurrency where
  | DAI
  | USDC
  | USDT
  | AMPR
  | ETH
  | BTC
  | SOL
deriving DecidableEq, Repr

/-- Decoding of the string value of a RecurringInterval enum member. -/
def parseRecurringInterval : String → Option RecurringInterval
  | "monthly" => some RecurringInterval.monthly
  | "quarterly" => some RecurringInterval.quarterly
  | "annually" => some RecurringInterval.annually
  | _ => none

/-- Decoding of the string value of a FeeCurrency enum member. -/
def parseFeeCurrency : String → Option FeeCurrency
  | "DAI" => some FeeCurrency.DAI
  | "USDC" => some FeeCurrency.USDC
  | "USDT" => some FeeCurrency.USDT
  | "AMPR" => some FeeCurrency.AMPR
  | "ETH" => some FeeCurrency.ETH
  | "BTC" => some FeeCurrency.BTC
  | "SOL" => some FeeCurrency.SOL
  | _ => none

/-- Raw fee payload, the dictionary handed to fee validation: the
fee_type tag and fee_currency arrive as strings, the interval key may be
absent, amount is a number. -/
structure RawFee where
  fee_type : String
  fee_currency : String
  amount : ℚ
  interval : Option String := none
  description : Option String := none
deriving DecidableEq, Repr

/-- Validated fee value: the OneTimeFixedFee and RecurringFixedFee
variants of the Fee union of blocks/models.py. -/
inductive Fee where
  | oneTimeFixed (fee_currency : FeeCurrency) (amount : ℚ)
      (description : Option String)
  | recurringFixed (fee_currency : FeeCurrency) (amount : ℚ)
      (interval : RecurringInterval) (description : Option String)
deriving DecidableEq, Repr

/-- Per-field validation errors, mirroring the entries a pydantic
ValidationError collects for a fee or manifest payload. -/
inductive FieldError where
  | wrongFeeTypeLiteral
  | invalidCurrency
  | invalidAmount
  | invalidInterval
  | missingInterval
  | notAFeeObject
  | unknownFeeType (tag : String)
  | invalidBlockType (s : String)
deriving DecidableEq, Repr

/-- Interval-key errors of a recurring fee payload: a missing key is a
required-field error, a key whose value is not an enum member is an
invalid-interval error. -/
def intervalFieldErrors : Option String → List FieldError
  | none => [FieldError.missingInterval]
  | some s =>
      if (parseRecurringInterval s).isSome then [] else [FieldError.invalidInterval]

/-- Field errors collected when validating a payload against
OneTimeFixedFee: the fee_type literal, the FeeCurrency enum, and the
PositiveFloat amount. -/
def oneTimeFieldErrors (f : RawFee) : List FieldError :=
  (if f.fee_type = "fixed_one_time" then [] else [FieldError.wrongFeeTypeLiteral])
    ++ (if (parseFeeCurrency f.fee_currency).isSome then [] else [FieldError.invalidCurrency])
    ++ (if 0 < f.amount then [] else [FieldError.invalidAmount])

/-- Embedding of OneTimeFixedFee.model_validate: all field errors are
collected; a payload with none of them yields the validated fee. -/
def OneTimeFixedFee.model_validate (f : RawFee) : Except (List FieldError) Fee :=
  match parseFeeCurrency f.fee_currency with
  | some cur =>
      match oneTimeFieldErrors f with
      | [] => Except.ok (Fee.oneTimeFixed cur f.amount f.description)
      | es => Except.error es
  | none => Except.error (oneTimeFieldErrors f)

/-- Field errors collected when validating a payload against
RecurringFixedFee: the fee_type literal, the FeeCurrency enum, the
PositiveFloat amount, and the RecurringInterval enum. -/
def recurringFieldErrors (f : RawFee) : List FieldError :=
  (if f.fee_type = "fixed_recurring" then [] else [FieldError.wrongFeeTypeLiteral])
    ++ (if (parseFeeCurrency f.fee_currency).isSome then [] else [FieldError.invalidCurrency])
    ++ (if 0 < f.amount then [] else [FieldError.invalidAmount])
    ++ intervalFieldErrors f.interval

/-- Embedding of RecurringFixedFee.model_validate: all field errors are
collected; a payload with none of them yields the validated fee. -/
def RecurringFixedFee.model_validate (f : RawFee) : Except (List FieldError) Fee :=
  match parseFeeCurrency f.fee_currency, f.interval.bind parseRecurringInterval with
  | some cur, some iv =>
      match recurringFieldErrors f with
      | [] => Except.ok (Fee.recurringFixed cur f.amount iv f.description)
      | es => Except.error es
  | _, _ => Except.error (recurringFieldErrors f)

/-- Embedding of SDKValidator.validate_fee (blocks/validator.py lines
31-55): route on the fee_type tag, validating against the matching
model, and fail on an unknown tag. -/
def SDKValidator.validate_fee (fee_data : RawFee) : Except (List FieldError) Fee :=
  if fee_data.fee_type = "fixed_one_time" then
    OneTimeFixedFee.model_validate fee_data
  else if fee_data.fee_type = "fixed_recurring" then
    RecurringFixedFee.model_validate fee_data
  else
    Except.error [FieldError.unknownFeeType fee_data.fee_type]

/-- Shape in which the fee field of a manifest payload arrives: absent
(or null), a single fee object, or a collection of fee objects. -/
inductive RawFeeField where
  | absent
  | scalar (f : RawFee)
  | feeList (fs : List RawFee)
deriving DecidableEq, Repr

/-- Manifest-level schema errors: the ValueError of the before-validator
when several fees are supplied, or the collected field errors of the
model validation. -/
inductive SchemaError where
  | multipleFeesNotAllowed
  | fieldErrors (es : List FieldError)
deriving DecidableEq, Repr

/-- Embedding of the before-validator Manifest.check_fee_type
(blocks/models.py lines 64-74): a fee collection of more than one
element raises, a one-element collection is replaced by its element, and
any other shape of the fee value is passed through unchanged. -/
def Manifest.check_fee_type (fee : RawFeeField) : Except SchemaError RawFeeField :=
  match fee with
  | RawFeeField.feeList fs =>
      if fs.length > 1 then
        Except.error SchemaError.multipleFeesNotAllowed
      else
        match fs with
        | [f] => Except.ok (RawFeeField.scalar f)
        | _ => Except.ok (RawFeeField.feeList fs)
  | other => Except.ok other

/-- Validation of the optional fee field of Manifest after the before-
validator has run: an absent fee is no fee, a single payload is decoded
through the tagged union exactly as SDKValidator.validate_fee routes it,
and a value that is still a collection is not a valid fee object. -/
def validateFeeField : RawFeeField → Except (List FieldError) (Option Fee)
  | RawFeeField.absent => Except.ok none
  | RawFeeField.scalar f => (SDKValidator.validate_fee f).map some
  | RawFeeField.feeList _ => Except.error [FieldError.notAFeeObject]

/-- Raw manifest payload: the fields of the Manifest model the claims
concern, with the fee field in raw shape. The optional license and
jurisdiction fields are omitted; no claim touches them. -/
structure RawManifest where
  name : String
  version : String
  block_type : String
  publisher : String × String
  description : String
  fee : RawFeeField := RawFeeField.absent
deriving DecidableEq, Repr

/-- Validated manifest, the Manifest model of blocks/models.py restricted
to the fields the claims concern. -/
structure Manifest where
  name : String
  version : String
  block_type : String
  publisher : String × String
  description : String
  fee : Option Fee := none
deriving DecidableEq, Repr

/-- Embedding of Manifest.model_validate: the before-validator
check_fee_type runs first and its ValueError aborts validation; field
validation then collects the block_type literal error and the fee field
errors. -/
def Manifest.model_validate (data : RawManifest) : Except SchemaError Manifest :=
  match Manifest.check_fee_type data.fee with
  | Except.error e => Except.error e
  | Except.ok fee_field =>
      let btErrs :=
        if data.block_type = "analyst" ∨ data.block_type = "action" ∨
            data.block_type = "custodial" then
          ([] : List FieldError)
        else
          [FieldError.invalidBlockType data.block_type]
      match validateFeeField fee_field with
      | Except.ok fee =>
          match btErrs with
          | [] =>
              Except.ok ⟨data.name, data.version, data.block_type,
                data.publisher, data.description, fee⟩
          | es => Except.error (SchemaError.fieldErrors es)
      | Except.error fes => Except.error (SchemaError.fieldErrors (btErrs ++ fes))

/-- C1 counterexample: with an expired authorization window (now 100,
window start 0, duration 30 days) and a proposal passing the asset,
positive-amount, per-transaction and cumulative checks,
is_proposal_compliant accepts as Compliant instead of rejecting with the
AuthorizationExpired reason: the function takes no window input and has
no window check. -/
theorem c1_counterexample :
    window_expired 100 0 30 = true ∧
    is_proposal_compliant
      { block_id := "blk", action_type := "buy", asset_id := "BTC",
        amount := 1, currency := "BTC" }
      { authorized_duration_days := 30, asset_id := "BTC",
        max_amount_per_transaction := 1, cumulative_max_amount := 10 } 0
      = (true, Reason.compliant) ∧
    is_proposal_compliant
      { block_id := "blk", action_type := "buy", asset_id := "BTC",
        amount := 1, currency := "BTC" }
      { authorized_duration_days := 30, asset_id := "BTC",
        max_amount_per_transaction := 1, cumulative_max_amount := 10 } 0
      ≠ (false, Reason.authorizationExpired) := by
  refine ⟨by decide, ?_, ?_⟩ <;> norm_num [is_proposal_compliant]

/-- C1 amended: is_proposal_compliant performs no authorization-window
check. Even when the window has expired, a proposal that passes the
asset, positive-amount, per-transaction and cumulative checks is
accepted as Compliant; window expiry is delegated to the wallet core. -/
theorem c1_no_window_check (p : TransactionProposal)
    (cs : ControllerSettings) (spent : ℚ) (now window_start : Int)
    (_hexpired : window_expired now window_start cs.authorized_duration_days = true)
    (hasset : p.asset_id = cs.asset_id)
    (hpos : 0 < p.amount)
    (hmax : p.amount ≤ cs.max_amount_per_transaction)
    (hcum : spent + p.amount ≤ cs.cumulative_max_amount) :
    is_proposal_compliant p cs spent = (true, Reason.compliant) := by
  have h1 : ¬(p.asset_id ≠ cs.asset_id) := by simp [hasset]
  have h2 : ¬(p.amount ≤ 0) := not_le.mpr hpos
  have h3 : ¬(p.amount > cs.max_amount_per_transaction) := not_lt.mpr hmax
  have h4 : ¬(spent + p.amount > cs.cumulative_max_amount) := not_lt.mpr hcum
  simp [is_proposal_compliant, h1, h2, h3, h4]

/-- C1 witness: the amended theorem applied at a concrete expired-window
input. -/
theorem c1_no_window_check_witness :
    is_proposal_compliant
      { block_id := "blk", action_type := "buy", asset_id := "BTC",
        amount := 1, currency := "BTC" }
      { authorized_duration_days := 30, asset_id := "BTC",
        max_amount_per_transaction := 1, cumulative_max_amount := 10 } 0
      = (true, Reason.compliant) :=
  c1_no_window_check
    { block_id := "blk", action_type := "buy", asset_id := "BTC",
      amount := 1, currency := "BTC" }
    { authorized_duration_days := 30, asset_id := "BTC",
      max_amount_per_transaction := 1, cumulative_max_amount := 10 }
    0 100 0 (by decide) (by decide) (by norm_num) (by norm_num) (by norm_num)

/-- C2 counterexample: a proposal with non-positive amount and an asset
id differing from the policy is rejected with the AssetMismatch reason,
not the NonPositiveAmount reason: the asset check runs first. -/
theorem c2_counterexample :
    is_proposal_compliant
      { block_id := "blk", action_type := "buy", asset_id := "ETH",
        amount := -1, currency := "ETH" }
      { authorized_duration_days := 30, asset_id := "BTC",
        max_amount_per_transaction := 1, cumulative_max_amount := 10 } 0
      = (false, Reason.assetMismatch) ∧
    is_proposal_compliant
      { block_id := "blk", action_type := "buy", asset_id := "ETH",
        amount := -1, currency := "ETH" }
      { authorized_duration_days := 30, asset_id := "BTC",
        max_amount_per_transaction := 1, cumulative_max_amount := 10 } 0
      ≠ (false, Reason.nonPositiveAmount) := by
  refine ⟨?_, ?_⟩ <;> norm_num [is_proposal_compliant] <;> decide

/-- C2 amended: every proposal with non-positive amount whose asset id
matches the policy is rejected with the NonPositiveAmount reason,
regardless of its remaining fields and of the ledger state. -/
theorem c2_non_positive_amount (p : TransactionProposal)
    (cs : ControllerSettings) (spent : ℚ)
    (hasset : p.asset_id = cs.asset_id)
    (hnp : p.amount ≤ 0) :
    is_proposal_compliant p cs spent = (false, Reason.nonPositiveAmount) := by
  have h1 : ¬(p.asset_id ≠ cs.asset_id) := by simp [hasset]
  simp [is_proposal_compliant, h1, hnp]

/-- C2 witness: the amended theorem applied at a concrete input with
amount zero. -/
theorem c2_non_positive_amount_witness :
    is_proposal_compliant
      { block_id := "blk", action_type := "buy", asset_id := "BTC",
        amount := 0, currency := "BTC" }
      { authorized_duration_days := 30, asset_id := "BTC",
        max_amount_per_transaction := 1, cumulative_max_amount := 10 } 5
      = (false, Reason.nonPositiveAmount) :=
  c2_non_positive_amount
    { block_id := "blk", action_type := "buy", asset_id := "BTC",
      amount := 0, currency := "BTC" }
    { authorized_duration_days := 30, asset_id := "BTC",
      max_amount_per_transaction := 1, cumulative_max_amount := 10 }
    5 (by decide) (by norm_num)

/-- C3: every proposal whose asset id differs from the policy is
rejected with the AssetMismatch reason, whatever its amount and the
ledger state: the asset check short-circuits before any amount check. -/
theorem c3_asset_mismatch_first (p : TransactionProposal)
    (cs : ControllerSettings) (spent : ℚ)
    (h : p.asset_id ≠ cs.asset_id) :
    is_proposal_compliant p cs spent = (false, Reason.assetMismatch) := by
  simp [is_proposal_compliant, h]

/-- C3 witness: the theorem applied at a concrete input whose amount is
also non-positive and above the per-transaction cap in absolute value. -/
theorem c3_asset_mismatch_first_witness :
    is_proposal_compliant
      { block_id := "blk", action_type := "buy", asset_id := "ETH",
        amount := -5, currency := "ETH" }
      { authorized_duration_days := 30, asset_id := "BTC",
        max_amount_per_transaction := 1, cumulative_max_amount := 10 } 0
      = (false, Reason.assetMismatch) :=
  c3_asset_mismatch_first
    { block_id := "blk", action_type := "buy", asset_id := "ETH",
      amount := -5, currency := "ETH" }
    { authorized_duration_days := 30, asset_id := "BTC",
      max_amount_per_transaction := 1, cumulative_max_amount := 10 }
    0 (by decide)

/-- C4: for a proposal passing the asset, positive-amount and
per-transaction checks, the cumulative check accepts when the spent
total plus the amount equals the cumulative cap exactly, and rejects
with the CumulativeLimitExceeded reason when it strictly exceeds it. -/
theorem c4_cumulative_boundary (p : TransactionProposal)
    (cs : ControllerSettings) (spent : ℚ)
    (hasset : p.asset_id = cs.asset_id)
    (hpos : 0 < p.amount)
    (hmax : p.amount ≤ cs.max_amount_per_transaction) :
    (spent + p.amount = cs.cumulative_max_amount →
      is_proposal_compliant p cs spent = (true, Reason.compliant)) ∧
    (spent + p.amount > cs.cumulative_max_amount →
      is_proposal_compliant p cs spent
        = (false, Reason.cumulativeLimitExceeded)) := by
  have h1 : ¬(p.asset_id ≠ cs.asset_id) := by simp [hasset]
  have h2 : ¬(p.amount ≤ 0) := not_le.mpr hpos
  have h3 : ¬(p.amount > cs.max_amount_per_transaction) := not_lt.mpr hmax
  constructor
  · intro heq
    have h4 : ¬(spent + p.amount > cs.cumulative_max_amount) :=
      not_lt.mpr (le_of_eq heq)
    simp [is_proposal_compliant, h1, h2, h3, h4]
  · intro hgt
    simp [is_proposal_compliant, h1, h2, h3, hgt]

/-- C4 witness: the theorem applied at the spec example policy, with
spent 9 and amount 1 hitting the cap exactly, and spent 19/2 and
amount 1 exceeding it. -/
theorem c4_cumulative_boundary_witness :
    is_proposal_compliant
      { block_id := "blk", action_type := "buy", asset_id := "BTC",
        amount := 1, currency := "BTC" }
      { authorized_duration_days := 30, asset_id := "BTC",
        max_amount_per_transaction := 1, cumulative_max_amount := 10 } 9
      = (true, Reason.compliant) ∧
    is_proposal_compliant
      { block_id := "blk", action_type := "buy", asset_id := "BTC",
        amount := 1, currency := "BTC" }
      { authorized_duration_days := 30, asset_id := "BTC",
        max_amount_per_transaction := 1, cumulative_max_amount := 10 } (19 / 2)
      = (false, Reason.cumulativeLimitExceeded) :=
  ⟨(c4_cumulative_boundary
      { block_id := "blk", action_type := "buy", asset_id := "BTC",
        amount := 1, currency := "BTC" }
      { authorized_duration_days := 30, asset_id := "BTC",
        max_amount_per_transaction := 1, cumulative_max_amount := 10 }
      9 (by decide) (by norm_num) (by norm_num)).1 (by norm_num),
   (c4_cumulative_boundary
      { block_id := "blk", action_type := "buy", asset_id := "BTC",
        amount := 1, currency := "BTC" }
      { authorized_duration_days := 30, asset_id := "BTC",
        max_amount_per_transaction := 1, cumulative_max_amount := 10 }
      (19 / 2) (by decide) (by norm_num) (by norm_num)).2 (by norm_num)⟩

/-- C5: one invocation of the proposal-submission flow either accepts
and increases the cumulative spend state by exactly the proposal amount,
or rejects (by the compliance check or by the block pre-check) and
leaves the state, which is the whole ledger state of the routes module,
unchanged. -/
theorem c5_spend_frame (cs : ControllerSettings) (p : TransactionProposal)
    (spend : ℚ) :
    ((propose_transaction_endpoint cs p spend).1 = EndpointStatus.proposed →
      (propose_transaction_endpoint cs p spend).2 = spend + p.amount) ∧
    ((propose_transaction_endpoint cs p spend).1 ≠ EndpointStatus.proposed →
      (propose_transaction_endpoint cs p spend).2 = spend) := by
  unfold propose_transaction_endpoint
  rcases hc : is_proposal_compliant p cs spend with ⟨b, r⟩
  cases b
  · simp
  · rcases hb : ActionBlock.propose_transaction cs p <;> simp

/-- C5 witness: the frame theorem applied at a concrete accepted input
and at a concrete rejected input. -/
theorem c5_spend_frame_witness :
    (propose_transaction_endpoint
      { authorized_duration_days := 30, asset_id := "BTC",
        max_amount_per_transaction := 1, cumulative_max_amount := 10 }
      { block_id := "blk", action_type := "buy", asset_id := "BTC",
        amount := 1, currency := "BTC" } 0).2
      = 0 + ({ block_id := "blk", action_type := "buy", asset_id := "BTC",
                amount := 1, currency := "BTC" } : TransactionProposal).amount ∧
    (propose_transaction_endpoint
      { authorized_duration_days := 30, asset_id := "BTC",
        max_amount_per_transaction := 1, cumulative_max_amount := 10 }
      { block_id := "blk", action_type := "sell", asset_id := "ETH",
        amount := 1, currency := "ETH" } 0).2 = 0 :=
  ⟨(c5_spend_frame
      { authorized_duration_days := 30, asset_id := "BTC",
        max_amount_per_transaction := 1, cumulative_max_amount := 10 }
      { block_id := "blk", action_type := "buy", asset_id := "BTC",
        amount := 1, currency := "BTC" } 0).1
      (by norm_num [propose_transaction_endpoint, is_proposal_compliant,
        ActionBlock.propose_transaction]),
   (c5_spend_frame
      { authorized_duration_days := 30, asset_id := "BTC",
        max_amount_per_transaction := 1, cumulative_max_amount := 10 }
      { block_id := "blk", action_type := "sell", asset_id := "ETH",
        amount := 1, currency := "ETH" } 0).2
      (by decide)⟩

/-- C6 counterexample: a manifest payload whose fee arrives as a
zero-element collection does not decode to a manifest with no fee: the
before-validator leaves the empty list in place and the fee field then
fails validation, so the whole decode is an error. -/
theorem c6_counterexample :
    Manifest.model_validate
      { name := "n", version := "1", block_type := "analyst",
        publisher := ("pub", "contact"), description := "d",
        fee := RawFeeField.feeList [] }
      = Except.error (SchemaError.fieldErrors [FieldError.notAFeeObject]) ∧
    ∀ m : Manifest, Manifest.model_validate
      { name := "n", version := "1", block_type := "analyst",
        publisher := ("pub", "contact"), description := "d",
        fee := RawFeeField.feeList [] }
      ≠ Except.ok m := by
  refine ⟨rfl, ?_⟩
  intro m h
  rw [show Manifest.model_validate
      { name := "n", version := "1", block_type := "analyst",
        publisher := ("pub", "contact"), description := "d",
        fee := RawFeeField.feeList [] }
      = Except.error (SchemaError.fieldErrors [FieldError.notAFeeObject])
    from rfl] at h
  exact Except.noConfusion h

/-- C6 amended: a one-element fee collection decodes to the same
manifest as the scalar form, a collection of more than one fee fails
with the multiple-fees error, and a zero-element collection fails
validation with a fee-field error instead of decoding to no fee. -/
theorem c6_fee_collection_intake (data : RawManifest) :
    (∀ f, data.fee = RawFeeField.feeList [f] →
      Manifest.model_validate data
        = Manifest.model_validate { data with fee := RawFeeField.scalar f }) ∧
    (∀ fs, data.fee = RawFeeField.feeList fs → 1 < fs.length →
      Manifest.model_validate data
        = Except.error SchemaError.multipleFeesNotAllowed) ∧
    (data.fee = RawFeeField.feeList [] →
      ∃ es, Manifest.model_validate data
        = Except.error (SchemaError.fieldErrors es) ∧
        FieldError.notAFeeObject ∈ es) := by
  refine ⟨?_, ?_, ?_⟩
  · intro f hf
    simp [Manifest.model_validate, Manifest.check_fee_type, hf]
  · intro fs hf hlen
    have hgt : fs.length > 1 := hlen
    simp [Manifest.model_validate, Manifest.check_fee_type, hf, hgt]
  · intro hf
    by_cases hbt : data.block_type = "analyst" ∨ data.block_type = "action" ∨
        data.block_type = "custodial"
    · refine ⟨[FieldError.notAFeeObject], ?_, by simp⟩
      simp [Manifest.model_validate, Manifest.check_fee_type, hf,
        validateFeeField, hbt]
    · refine ⟨[FieldError.invalidBlockType data.block_type,
        FieldError.notAFeeObject], ?_, by simp⟩
      simp [Manifest.model_validate, Manifest.check_fee_type, hf,
        validateFeeField, hbt]

/-- C6 witness: the amended theorem applied at a concrete manifest
payload with a one-element fee collection. -/
theorem c6_fee_collection_intake_witness :
    Manifest.model_validate
      { name := "n", version := "1", block_type := "action",
        publisher := ("pub", "contact"), description := "d",
        fee := RawFeeField.feeList
          [{ fee_type := "fixed_one_time", fee_currency := "USDC",
             amount := 2 }] }
      = Manifest.model_validate
      { name := "n", version := "1", block_type := "action",
        publisher := ("pub", "contact"), description := "d",
        fee := RawFeeField.scalar
          { fee_type := "fixed_one_time", fee_currency := "USDC",
            amount := 2 } } :=
  (c6_fee_collection_intake
    { name := "n", version := "1", block_type := "action",
      publisher := ("pub", "contact"), description := "d",
      fee := RawFeeField.feeList
        [{ fee_type := "fixed_one_time", fee_currency := "USDC",
           amount := 2 }] }).1
    { fee_type := "fixed_one_time", fee_currency := "USDC", amount := 2 } rfl

/-- C7: fee decoding routes on the fee_type tag: a payload accepted
under the fixed_one_time tag is a validated one-time fixed fee, a
payload accepted under the fixed_recurring tag is a validated recurring
fixed fee, an unknown tag always fails with the unknown-fee-type error,
and a recurring payload whose interval string is outside the enumerated
set fails with the invalid-interval error among its field errors. -/
theorem c7_fee_tag_routing (f : RawFee) :
    (f.fee_type = "fixed_one_time" →
      ∀ fee, SDKValidator.validate_fee f = Except.ok fee →
        ∃ cur, parseFeeCurrency f.fee_currency = some cur ∧
          fee = Fee.oneTimeFixed cur f.amount f.description ∧ 0 < f.amount) ∧
    (f.fee_type = "fixed_recurring" →
      ∀ fee, SDKValidator.validate_fee f = Except.ok fee →
        ∃ cur iv, parseFeeCurrency f.fee_currency = some cur ∧
          f.interval.bind parseRecurringInterval = some iv ∧
          fee = Fee.recurringFixed cur f.amount iv f.description ∧
          0 < f.amount) ∧
    (f.fee_type ≠ "fixed_one_time" → f.fee_type ≠ "fixed_recurring" →
      SDKValidator.validate_fee f
        = Except.error [FieldError.unknownFeeType f.fee_type]) ∧
    (∀ s, f.fee_type = "fixed_recurring" → f.interval = some s →
      parseRecurringInterval s = none →
      ∃ es, SDKValidator.validate_fee f = Except.error es ∧
        FieldError.invalidInterval ∈ es) := by
  refine ⟨?_, ?_, ?_, ?_⟩
  · intro htag fee hok
    have hne : f.fee_type = "fixed_one_time" := htag
    rw [SDKValidator.validate_fee, if_pos hne] at hok
    rcases hcur : parseFeeCurrency f.fee_currency with _ | cur
    · rw [OneTimeFixedFee.model_validate, hcur] at hok
      exact Except.noConfusion hok
    · rw [OneTimeFixedFee.model_validate, hcur] at hok
      by_cases hamt : 0 < f.amount
      · have herr : oneTimeFieldErrors f = [] := by
          simp [oneTimeFieldErrors, htag, hcur, hamt]
        rw [herr] at hok
        injection hok with hfee
        subst hfee
        exact ⟨cur, rfl, rfl, hamt⟩
      · have herr : oneTimeFieldErrors f = [FieldError.invalidAmount] := by
          simp [oneTimeFieldErrors, htag, hcur, hamt]
        rw [herr] at hok
        exact Except.noConfusion hok
  · intro htag fee hok
    have hne1 : ¬f.fee_type = "fixed_one_time" := by
      rw [htag]; decide
    rw [SDKValidator.validate_fee, if_neg hne1, if_pos htag] at hok
    rcases hcur : parseFeeCurrency f.fee_currency with _ | cur
    · rw [RecurringFixedFee.model_validate] at hok
      rw [hcur] at hok
      exact Except.noConfusion hok
    · rcases hiv : f.interval.bind parseRecurringInterval with _ | iv
      · rw [RecurringFixedFee.model_validate] at hok
        rw [hcur, hiv] at hok
        exact Except.noConfusion hok
      · rw [RecurringFixedFee.model_validate] at hok
        rw [hcur, hiv] at hok
        by_cases hamt : 0 < f.amount
        · have herr : recurringFieldErrors f = [] := by
            rcases hint : f.interval with _ | s
            · rw [hint] at hiv
              exact Option.noConfusion hiv
            · rw [hint] at hiv
              have hps : parseRecurringInterval s = some iv := hiv
              simp [recurringFieldErrors, htag, hcur, hamt,
                intervalFieldErrors, hint, hps]
          rw [herr] at hok
          injection hok with hfee
          subst hfee
          exact ⟨cur, iv, rfl, rfl, rfl, hamt⟩
        · have herr : ∃ e es, recurringFieldErrors f = e :: es := by
            simp [recurringFieldErrors, htag, hcur, hamt]
          rcases herr with ⟨e, es, herr⟩
          rw [herr] at hok
          exact Except.noConfusion hok
  · intro h1 h2
    rw [SDKValidator.validate_fee, if_neg h1, if_neg h2]
  · intro s htag hint hbad
    have hbind : f.interval.bind parseRecurringInterval = none := by
      rw [hint]
      simp [hbad]
    have hne1 : ¬f.fee_type = "fixed_one_time" := by
      rw [htag]; decide
    refine ⟨recurringFieldErrors f, ?_, ?_⟩
    · rw [SDKValidator.validate_fee, if_neg hne1, if_pos htag]
      rcases hcur : parseFeeCurrency f.fee_currency with _ | cur
      · rw [RecurringFixedFee.model_validate, hcur]
      · rw [RecurringFixedFee.model_validate, hcur, hbind]
    · simp [recurringFieldErrors, intervalFieldErrors, hint, hbad]

/-- C7 witness: the theorem applied at a concrete payload with an
unknown fee_type tag. -/
theorem c7_fee_tag_routing_witness :
    SDKValidator.validate_fee
      { fee_type := "subscription", fee_currency := "USDC", amount := 1 }
      = Except.error [FieldError.unknownFeeType "subscription"] :=
  (c7_fee_tag_routing
    { fee_type := "subscription", fee_currency := "USDC",
      amount := 1 }).2.2.1 (by decide) (by decide)

/-- C8: under an authorized analyst policy whose duration is absent or
positive, a chat_message operation with an attached (non-empty) message
type is rejected with the advice-not-permitted reason when the type is
advice and advice is not allowed, accepted when the type is advice with
advice allowed or is analysis, and rejected with the invalid-message-type
reason for any other attached type. -/
theorem c8_analyst_message_rules (cs : AnalystController) (mt : String)
    (hauth : cs.authorized = true)
    (hdur : cs.authorized_duration_days = none ∨
      ∃ d, cs.authorized_duration_days = some d ∧ 0 < d)
    (hmt : mt ≠ "") :
    ((mt = "advice" ∧ cs.advice_allowed = false) →
      AnalystWalletInterface.is_operation_compliant cs "chat_message" (some mt)
        = (false, AnalystReason.adviceNotPermitted)) ∧
    ((mt = "advice" ∧ cs.advice_allowed = true) ∨ mt = "analysis" →
      AnalystWalletInterface.is_operation_compliant cs "chat_message" (some mt)
        = (true, AnalystReason.compliant)) ∧
    ((mt ≠ "advice" ∧ mt ≠ "analysis") →
      AnalystWalletInterface.is_operation_compliant cs "chat_message" (some mt)
        = (false, AnalystReason.invalidMessageType)) := by
  have hbase : BaseWalletInterface.is_operation_compliant cs
      = (true, AnalystReason.compliant) := by
    rcases hdur with hnone | ⟨d, hd, hdpos⟩
    · simp [BaseWalletInterface.is_operation_compliant, hauth, hnone]
    · simp [BaseWalletInterface.is_operation_compliant, hauth, hd,
        not_le.mpr hdpos]
  refine ⟨?_, ?_, ?_⟩
  · rintro ⟨hadv, hallow⟩
    simp [AnalystWalletInterface.is_operation_compliant, hbase, strTruthy,
      hmt, hadv, hallow]
  · rintro (⟨hadv, hallow⟩ | hana)
    · simp [AnalystWalletInterface.is_operation_compliant, hbase, strTruthy,
        hmt, hadv, hallow]
    · have hne : mt ≠ "advice" := by
        rw [hana]; decide
      simp [AnalystWalletInterface.is_operation_compliant, hbase, strTruthy,
        hmt, hana]
  · rintro ⟨hne1, hne2⟩
    simp [AnalystWalletInterface.is_operation_compliant, hbase, strTruthy,
      hmt, hne1, hne2]

/-- C8 witness: the theorem applied at a concrete policy with advice not
allowed and an attached advice message. -/
theorem c8_analyst_message_rules_witness :
    AnalystWalletInterface.is_operation_compliant
      { authorized := true, authorized_duration_days := none,
        portfolio_access := false, advice_allowed := false }
      "chat_message" (some "advice")
      = (false, AnalystReason.adviceNotPermitted) :=
  (c8_analyst_message_rules
    { authorized := true, authorized_duration_days := none,
      portfolio_access := false, advice_allowed := false }
    "advice" rfl (Or.inl rfl) (by decide)).1 ⟨rfl, rfl⟩

/-- C10: for an authorized analyst policy whose duration is absent or
positive, a chat_message operation whose message_type is the empty
string is compliant: the empty string is falsy, so the message checks
are skipped exactly as when no message is attached. -/
theorem c10_empty_message_type (cs : AnalystController)
    (hauth : cs.authorized = true)
    (hdur : cs.authorized_duration_days = none ∨
      ∃ d, cs.authorized_duration_days = some d ∧ 0 < d) :
    AnalystWalletInterface.is_operation_compliant cs "chat_message" (some "")
      = (true, AnalystReason.compliant) := by
  have hbase : BaseWalletInterface.is_operation_compliant cs
      = (true, AnalystReason.compliant) := by
    rcases hdur with hnone | ⟨d, hd, hdpos⟩
    · simp [BaseWalletInterface.is_operation_compliant, hauth, hnone]
    · simp [BaseWalletInterface.is_operation_compliant, hauth, hd,
        not_le.mpr hdpos]
  simp [AnalystWalletInterface.is_operation_compliant, hbase, strTruthy]

/-- C10 witness: the theorem applied at a concrete authorized policy
with a positive remaining duration. -/
theorem c10_empty_message_type_witness :
    AnalystWalletInterface.is_operation_compliant
      { authorized := true, authorized_duration_days := some 7,
        portfolio_access := true, advice_allowed := false }
      "chat_message" (some "")
      = (true, AnalystReason.compliant) :=
  c10_empty_message_type
    { authorized := true, authorized_duration_days := some 7,
      portfolio_access := true, advice_allowed := false }
    rfl (Or.inr ⟨7, rfl, by decide⟩)

end BlockKit
